import Mathlib

/-!
Shallow embedding of the `intel-pstate` crate (`src/lib.rs`).

The crate is a thin accessor over three sysfs pseudo-files under the fixed
directory `/sys/devices/system/cpu/intel_pstate`.  We embed the filesystem as
an explicit state `FS` recording whether that directory exists and, for each
of the three control files, whether it is present and whether the calling
process may read or write it.  File operations take and (for writes) return
this state; fallible operations return `Except`.

I/O errors are abstracted to the cases the code can actually hit: opening a
missing file (`notFound`, since the setters open with `write(true)` and no
`create`), an open/read/write denied by the OS (`permissionDenied`, the
representative injected fault), and the `InvalidData` error that `parse_file`
manufactures from a parse failure.  Writes to these kernel-managed
pseudo-files replace the stored value wholesale (sysfs store semantics).
-/

deriving instance DecidableEq for Except

namespace IntelPstate

/-- Embeds the subset of `std::io::Error` values the crate can produce:
`NotFound` from opening a missing file, a generic OS-level denial, and the
`ErrorKind::InvalidData` error built in `parse_file` from the parse message. -/
inductive IOErr where
  | notFound
  | permissionDenied
  | invalidData (msg : String)
deriving DecidableEq, Repr

/-- Embeds `PStateError` from `src/lib.rs`: three `Get*` variants wrapping an
I/O error, `NotFound` for the missing directory, and three `Set*` variants
carrying the value being applied together with the I/O error. -/
inductive PStateError where
  | GetMinPerf (e : IOErr)
  | GetMaxPerf (e : IOErr)
  | GetNoTurbo (e : IOErr)
  | NotFound
  | SetMinPerf (v : Nat) (e : IOErr)
  | SetMaxPerf (v : Nat) (e : IOErr)
  | SetNoTurbo (b : Bool) (e : IOErr)
deriving DecidableEq, Repr

/-- Embeds `PStateValues`; the `u8` fields become `Nat` (values below 256). -/
structure PStateValues where
  min_perf_pct : Nat
  max_perf_pct : Nat
  no_turbo : Bool
deriving DecidableEq, Repr

/-- Embeds `PStateValues::new`. -/
def PStateValues.new (min max : Nat) (no_turbo : Bool) : PStateValues :=
  { min_perf_pct := min, max_perf_pct := max, no_turbo := no_turbo }

/-- Embeds the `SmartDefault` derive on `PStateValues`: `max_perf_pct` is
annotated `#[default(100)]`, the other fields take the type defaults. -/
def PStateValues.default : PStateValues :=
  { min_perf_pct := 0, max_perf_pct := 100, no_turbo := false }

/-- State of one file as the process sees it: absent, or present with given
contents and read/write permission bits. -/
inductive FileState where
  | absent
  | file (contents : String) (readable writable : Bool)
deriving DecidableEq, Repr

/-- The filesystem state the crate touches: existence of the fixed
`intel_pstate` directory and the three control files inside it. -/
structure FS where
  intelPstateDir : Bool
  minFile : FileState
  maxFile : FileState
  noTurboFile : FileState
deriving DecidableEq, Repr

/-- The fixed sysfs path hard-coded in `PState::new`. -/
def pstate_path : String := "/sys/devices/system/cpu/intel_pstate"

/-- Embeds `PathBuf::join` for the paths the crate builds. -/
def pathJoin (base name : String) : String := base ++ "/" ++ name

/-- Resolve a path against the filesystem state: only the three control
files under the fixed directory may be present. -/
def FS.fileAt (fs : FS) (p : String) : FileState :=
  if p = pathJoin pstate_path "min_perf_pct" then fs.minFile
  else if p = pathJoin pstate_path "max_perf_pct" then fs.maxFile
  else if p = pathJoin pstate_path "no_turbo" then fs.noTurboFile
  else .absent

/-- Replace the state of the file at a path (no-op for any other path). -/
def FS.setFileAt (fs : FS) (p : String) (st : FileState) : FS :=
  if p = pathJoin pstate_path "min_perf_pct" then { fs with minFile := st }
  else if p = pathJoin pstate_path "max_perf_pct" then { fs with maxFile := st }
  else if p = pathJoin pstate_path "no_turbo" then { fs with noTurboFile := st }
  else fs

/-- Embeds the `PState` handle: it holds only the directory path. -/
structure PState where
  path : String
deriving DecidableEq, Repr

/-- Embeds `PState::new`: build the fixed path, return the handle if it is a
directory, otherwise `PStateError::NotFound`. -/
def PState.new (fs : FS) : Except PStateError PState :=
  if fs.intelPstateDir then .ok { path := pstate_path }
  else .error .NotFound

/-- Embeds `read_file`: `File::open` (fails on a missing or unreadable file)
followed by `read_to_string`; reading does not change the filesystem. -/
def read_file (fs : FS) (p : String) : Except IOErr String :=
  match fs.fileAt p with
  | .absent => .error .notFound
  | .file c r _ => if r then .ok c else .error .permissionDenied

/-- Embeds `write_file`: `OpenOptions::new().write(true).open(path)` — which
fails with `NotFound` on a missing file since `create` is not set — then
`write_all`.  A successful store to a sysfs pseudo-file replaces the stored
value with exactly the written bytes; permission bits are unchanged.  The
resulting filesystem state is returned alongside the result (on failure the
state is unchanged, as the open fails before any byte is written). -/
def write_file (fs : FS) (p : String) (data : String) : Except IOErr Unit × FS :=
  match fs.fileAt p with
  | .absent => (.error .notFound, fs)
  | .file _ r w =>
      if w then (.ok (), fs.setFileAt p (.file data r w))
      else (.error .permissionDenied, fs)

/-- Embeds `str::trim` on the character list of a string: drop whitespace
from both ends. -/
def trimString (s : String) : String :=
  ⟨((s.data.dropWhile Char.isWhitespace).reverse.dropWhile Char.isWhitespace).reverse⟩

/-- Decimal value of a digit list, as accumulated by `from_str_radix`. -/
def charsToNat (l : List Char) : Nat :=
  l.foldl (fun a c => a * 10 + (c.toNat - 48)) 0

/-- Embeds `u8::from_str` (i.e. `from_str_radix(src, 10)` for `u8`): an empty
string is the `Empty` error; an optional leading `+` is stripped (a bare `+`
or any non-digit gives `InvalidDigit`); the digit string's value must fit in
8 bits or the result is `PosOverflow`.  Errors carry the message of the
corresponding `ParseIntError`. -/
def u8_from_str (s : String) : Except String Nat :=
  let cs := s.data
  if cs.isEmpty then .error "cannot parse integer from empty string"
  else
    let ds := if cs.head? = some '+' then cs.tail else cs
    if ds.isEmpty then .error "invalid digit found in string"
    else if ds.all Char.isDigit then
      if charsToNat ds ≤ 255 then .ok (charsToNat ds)
      else .error "number too large to fit in target type"
    else .error "invalid digit found in string"

/-- Embeds `parse_file::<u8, _>`: `read_file`, `trim`, `parse`, mapping a
parse failure to an `InvalidData` I/O error carrying the parse message. -/
def parse_file (fs : FS) (p : String) : Except IOErr Nat :=
  match read_file fs p with
  | .error e => .error e
  | .ok s =>
      match u8_from_str (trimString s) with
      | .ok v => .ok v
      | .error msg => .error (.invalidData msg)

/-- Embeds `PState::min_perf_pct`. -/
def PState.min_perf_pct (h : PState) (fs : FS) : Except PStateError Nat :=
  (parse_file fs (pathJoin h.path "min_perf_pct")).mapError PStateError.GetMinPerf

/-- Embeds `PState::set_min_perf_pct`; `format!("{}", min)` is `Nat.repr`. -/
def PState.set_min_perf_pct (h : PState) (min : Nat) (fs : FS) :
    Except PStateError Unit × FS :=
  let (r, fs') := write_file fs (pathJoin h.path "min_perf_pct") (Nat.repr min)
  (r.mapError (PStateError.SetMinPerf min), fs')

/-- Embeds `PState::max_perf_pct`. -/
def PState.max_perf_pct (h : PState) (fs : FS) : Except PStateError Nat :=
  (parse_file fs (pathJoin h.path "max_perf_pct")).mapError PStateError.GetMaxPerf

/-- Embeds `PState::set_max_perf_pct`. -/
def PState.set_max_perf_pct (h : PState) (max : Nat) (fs : FS) :
    Except PStateError Unit × FS :=
  let (r, fs') := write_file fs (pathJoin h.path "max_perf_pct") (Nat.repr max)
  (r.mapError (PStateError.SetMaxPerf max), fs')

/-- Embeds `PState::no_turbo`: parse the file as `u8`, then return
`value > 0`. -/
def PState.no_turbo (h : PState) (fs : FS) : Except PStateError Bool :=
  match (parse_file fs (pathJoin h.path "no_turbo")).mapError PStateError.GetNoTurbo with
  | .error e => .error e
  | .ok v => .ok (decide (0 < v))

/-- Embeds `PState::set_no_turbo`: write the literal `"1"` or `"0"`. -/
def PState.set_no_turbo (h : PState) (no_turbo : Bool) (fs : FS) :
    Except PStateError Unit × FS :=
  let (r, fs') := write_file fs (pathJoin h.path "no_turbo")
      (if no_turbo then "1" else "0")
  (r.mapError (PStateError.SetNoTurbo no_turbo), fs')

/-- Embeds `PState::values`: the three getters in order min, max, no_turbo,
each short-circuiting with `?`. -/
def PState.values (h : PState) (fs : FS) : Except PStateError PStateValues :=
  match h.min_perf_pct fs with
  | .error e => .error e
  | .ok mn =>
      match h.max_perf_pct fs with
      | .error e => .error e
      | .ok mx =>
          match h.no_turbo fs with
          | .error e => .error e
          | .ok nt => .ok { min_perf_pct := mn, max_perf_pct := mx, no_turbo := nt }

/-- Embeds `PState::set_values`: the three setters in order min, max,
no_turbo, each short-circuiting with `?` and threading the filesystem. -/
def PState.set_values (h : PState) (values : PStateValues) (fs : FS) :
    Except PStateError Unit × FS :=
  match h.set_min_perf_pct values.min_perf_pct fs with
  | (.error e, fs1) => (.error e, fs1)
  | (.ok _, fs1) =>
      match h.set_max_perf_pct values.max_perf_pct fs1 with
      | (.error e, fs2) => (.error e, fs2)
      | (.ok _, fs2) => h.set_no_turbo values.no_turbo fs2

/-- The I/O error (if any) that an attempt to open a file for writing and
write to it produces, as a function of the file's state. -/
def writeFailure : FileState → Option IOErr
  | .absent => some .notFound
  | .file _ _ w => if w then none else some .permissionDenied

/-- The I/O error (if any) that opening a file and reading it produces, as a
function of the file's state. -/
def readFailure : FileState → Option IOErr
  | .absent => some .notFound
  | .file _ r _ => if r then none else some .permissionDenied

/-! ### Path resolution lemmas -/

@[simp] theorem fileAt_min (fs : FS) :
    fs.fileAt (pathJoin pstate_path "min_perf_pct") = fs.minFile := by
  unfold FS.fileAt; rw [if_pos rfl]

@[simp] theorem fileAt_max (fs : FS) :
    fs.fileAt (pathJoin pstate_path "max_perf_pct") = fs.maxFile := by
  unfold FS.fileAt; rw [if_neg (by decide), if_pos rfl]

@[simp] theorem fileAt_noTurbo (fs : FS) :
    fs.fileAt (pathJoin pstate_path "no_turbo") = fs.noTurboFile := by
  unfold FS.fileAt; rw [if_neg (by decide), if_neg (by decide), if_pos rfl]

@[simp] theorem setFileAt_min (fs : FS) (st : FileState) :
    fs.setFileAt (pathJoin pstate_path "min_perf_pct") st = { fs with minFile := st } := by
  unfold FS.setFileAt; rw [if_pos rfl]

@[simp] theorem setFileAt_max (fs : FS) (st : FileState) :
    fs.setFileAt (pathJoin pstate_path "max_perf_pct") st = { fs with maxFile := st } := by
  unfold FS.setFileAt; rw [if_neg (by decide), if_pos rfl]

@[simp] theorem setFileAt_noTurbo (fs : FS) (st : FileState) :
    fs.setFileAt (pathJoin pstate_path "no_turbo") st = { fs with noTurboFile := st } := by
  unfold FS.setFileAt; rw [if_neg (by decide), if_neg (by decide), if_pos rfl]

/-! ### Behaviour of the individual setters -/

theorem set_min_ok (fs : FS) (v : Nat) (c : String) (r : Bool)
    (h : fs.minFile = .file c r true) :
    PState.set_min_perf_pct { path := pstate_path } v fs =
      (.ok (), { fs with minFile := .file (Nat.repr v) r true }) := by
  simp [PState.set_min_perf_pct, write_file, h, Except.mapError]

theorem set_min_fail (fs : FS) (v : Nat) (e : IOErr)
    (h : writeFailure fs.minFile = some e) :
    PState.set_min_perf_pct { path := pstate_path } v fs =
      (.error (.SetMinPerf v e), fs) := by
  cases hm : fs.minFile with
  | absent =>
      rw [hm] at h; simp [writeFailure] at h
      simp [PState.set_min_perf_pct, write_file, hm, ← h, Except.mapError]
  | file c r w =>
      rw [hm] at h
      cases w with
      | true => simp [writeFailure] at h
      | false =>
          simp [writeFailure] at h
          simp [PState.set_min_perf_pct, write_file, hm, ← h, Except.mapError]

theorem set_max_ok (fs : FS) (v : Nat) (c : String) (r : Bool)
    (h : fs.maxFile = .file c r true) :
    PState.set_max_perf_pct { path := pstate_path } v fs =
      (.ok (), { fs with maxFile := .file (Nat.repr v) r true }) := by
  simp [PState.set_max_perf_pct, write_file, h, Except.mapError]

theorem set_max_fail (fs : FS) (v : Nat) (e : IOErr)
    (h : writeFailure fs.maxFile = some e) :
    PState.set_max_perf_pct { path := pstate_path } v fs =
      (.error (.SetMaxPerf v e), fs) := by
  cases hm : fs.maxFile with
  | absent =>
      rw [hm] at h; simp [writeFailure] at h
      simp [PState.set_max_perf_pct, write_file, hm, ← h, Except.mapError]
  | file c r w =>
      rw [hm] at h
      cases w with
      | true => simp [writeFailure] at h
      | false =>
          simp [writeFailure] at h
          simp [PState.set_max_perf_pct, write_file, hm, ← h, Except.mapError]

theorem set_no_turbo_ok (fs : FS) (b : Bool) (c : String) (r : Bool)
    (h : fs.noTurboFile = .file c r true) :
    PState.set_no_turbo { path := pstate_path } b fs =
      (.ok (), { fs with noTurboFile := .file (if b then "1" else "0") r true }) := by
  simp [PState.set_no_turbo, write_file, h, Except.mapError]

theorem set_no_turbo_fail (fs : FS) (b : Bool) (e : IOErr)
    (h : writeFailure fs.noTurboFile = some e) :
    PState.set_no_turbo { path := pstate_path } b fs =
      (.error (.SetNoTurbo b e), fs) := by
  cases hm : fs.noTurboFile with
  | absent =>
      rw [hm] at h; simp [writeFailure] at h
      simp [PState.set_no_turbo, write_file, hm, ← h, Except.mapError]
  | file c r w =>
      rw [hm] at h
      cases w with
      | true => simp [writeFailure] at h
      | false =>
          simp [writeFailure] at h
          simp [PState.set_no_turbo, write_file, hm, ← h, Except.mapError]

/-! ### Parsing lemmas -/

set_option maxHeartbeats 1000000 in
set_option maxRecDepth 10000 in
/-- Writing the decimal representation of any 8-bit value and parsing it
back (after trimming) recovers the value. -/
theorem u8_repr_round : ∀ v, v < 256 → u8_from_str (trimString (Nat.repr v)) = .ok v := by
  decide

/-- A successful `u8` parse always yields a value that fits in 8 bits. -/
theorem u8_ok_le (s : String) (v : Nat) (h : u8_from_str s = .ok v) : v ≤ 255 := by
  simp only [u8_from_str] at h
  generalize (if s.data.head? = some '+' then s.data.tail else s.data) = ds at h
  split at h
  · exact Except.noConfusion h
  · split at h
    · exact Except.noConfusion h
    · split at h
      · split at h
        · injection h with h'
          omega
        · exact Except.noConfusion h
      · exact Except.noConfusion h

/-- Pure digit text whose value exceeds 255 parses to the `PosOverflow`
error, exactly as `u8::from_str` reports it. -/
theorem u8_overflow (s : String) (hne : s.data.isEmpty = false)
    (hd : s.data.all Char.isDigit = true) (hgt : 255 < charsToNat s.data) :
    u8_from_str s = .error "number too large to fit in target type" := by
  have hhead : ¬ (s.data.head? = some '+') := by
    cases hl : s.data with
    | nil => rw [hl] at hne; simp at hne
    | cons a as =>
        rw [hl] at hd
        simp only [List.all_cons, Bool.and_eq_true] at hd
        intro heq
        simp only [List.head?] at heq
        injection heq with ha
        rw [ha] at hd
        exact absurd hd.1 (by decide)
  simp only [u8_from_str]
  rw [if_neg (by simp [hne]), if_neg hhead, if_neg (by simp [hne]),
    if_pos hd, if_neg (by omega)]

/-- Text with a leading minus sign is rejected by `u8::from_str` with the
`InvalidDigit` error (for unsigned types the sign is not special-cased). -/
theorem u8_neg_sign (s : String) (ds : List Char) (h : s.data = '-' :: ds) :
    u8_from_str s = .error "invalid digit found in string" := by
  simp only [u8_from_str, h]
  simp

/-! ### Behaviour of the individual getters -/

theorem get_min_parse_ok (fs : FS) (c : String) (w : Bool) (v : Nat)
    (h : fs.minFile = .file c true w) (hp : u8_from_str (trimString c) = .ok v) :
    PState.min_perf_pct { path := pstate_path } fs = .ok v := by
  simp [PState.min_perf_pct, parse_file, read_file, h, hp, Except.mapError]

theorem get_min_parse_err (fs : FS) (c : String) (w : Bool) (m : String)
    (h : fs.minFile = .file c true w) (hp : u8_from_str (trimString c) = .error m) :
    PState.min_perf_pct { path := pstate_path } fs = .error (.GetMinPerf (.invalidData m)) := by
  simp [PState.min_perf_pct, parse_file, read_file, h, hp, Except.mapError]

theorem get_min_read_fail (fs : FS) (e : IOErr)
    (h : readFailure fs.minFile = some e) :
    PState.min_perf_pct { path := pstate_path } fs = .error (.GetMinPerf e) := by
  cases hm : fs.minFile with
  | absent =>
      rw [hm] at h; simp [readFailure] at h
      simp [PState.min_perf_pct, parse_file, read_file, hm, ← h, Except.mapError]
  | file c r w =>
      rw [hm] at h
      cases r with
      | true => simp [readFailure] at h
      | false =>
          simp [readFailure] at h
          simp [PState.min_perf_pct, parse_file, read_file, hm, ← h, Except.mapError]

theorem get_max_parse_ok (fs : FS) (c : String) (w : Bool) (v : Nat)
    (h : fs.maxFile = .file c true w) (hp : u8_from_str (trimString c) = .ok v) :
    PState.max_perf_pct { path := pstate_path } fs = .ok v := by
  simp [PState.max_perf_pct, parse_file, read_file, h, hp, Except.mapError]

theorem get_max_parse_err (fs : FS) (c : String) (w : Bool) (m : String)
    (h : fs.maxFile = .file c true w) (hp : u8_from_str (trimString c) = .error m) :
    PState.max_perf_pct { path := pstate_path } fs = .error (.GetMaxPerf (.invalidData m)) := by
  simp [PState.max_perf_pct, parse_file, read_file, h, hp, Except.mapError]

theorem get_max_read_fail (fs : FS) (e : IOErr)
    (h : readFailure fs.maxFile = some e) :
    PState.max_perf_pct { path := pstate_path } fs = .error (.GetMaxPerf e) := by
  cases hm : fs.maxFile with
  | absent =>
      rw [hm] at h; simp [readFailure] at h
      simp [PState.max_perf_pct, parse_file, read_file, hm, ← h, Except.mapError]
  | file c r w =>
      rw [hm] at h
      cases r with
      | true => simp [readFailure] at h
      | false =>
          simp [readFailure] at h
          simp [PState.max_perf_pct, parse_file, read_file, hm, ← h, Except.mapError]

theorem get_no_turbo_parse_ok (fs : FS) (c : String) (w : Bool) (v : Nat)
    (h : fs.noTurboFile = .file c true w) (hp : u8_from_str (trimString c) = .ok v) :
    PState.no_turbo { path := pstate_path } fs = .ok (decide (0 < v)) := by
  simp [PState.no_turbo, parse_file, read_file, h, hp, Except.mapError]

theorem get_no_turbo_parse_err (fs : FS) (c : String) (w : Bool) (m : String)
    (h : fs.noTurboFile = .file c true w) (hp : u8_from_str (trimString c) = .error m) :
    PState.no_turbo { path := pstate_path } fs = .error (.GetNoTurbo (.invalidData m)) := by
  simp [PState.no_turbo, parse_file, read_file, h, hp, Except.mapError]

theorem get_no_turbo_read_fail (fs : FS) (e : IOErr)
    (h : readFailure fs.noTurboFile = some e) :
    PState.no_turbo { path := pstate_path } fs = .error (.GetNoTurbo e) := by
  cases hm : fs.noTurboFile with
  | absent =>
      rw [hm] at h; simp [readFailure] at h
      simp [PState.no_turbo, parse_file, read_file, hm, ← h, Except.mapError]
  | file c r w =>
      rw [hm] at h
      cases r with
      | true => simp [readFailure] at h
      | false =>
          simp [readFailure] at h
          simp [PState.no_turbo, parse_file, read_file, hm, ← h, Except.mapError]

/-- Inversion: a successful `min_perf_pct` read means the file was readable
and its trimmed contents parsed to exactly the returned value. -/
theorem get_min_ok_inv (fs : FS) (c : String) (r w : Bool) (v : Nat)
    (h : fs.minFile = .file c r w)
    (hv : PState.min_perf_pct { path := pstate_path } fs = .ok v) :
    r = true ∧ u8_from_str (trimString c) = .ok v := by
  cases r with
  | false =>
      simp [PState.min_perf_pct, parse_file, read_file, h, Except.mapError] at hv
  | true =>
      refine ⟨rfl, ?_⟩
      cases hp : u8_from_str (trimString c) with
      | error m =>
          simp [PState.min_perf_pct, parse_file, read_file, h, hp, Except.mapError] at hv
      | ok u =>
          simp [PState.min_perf_pct, parse_file, read_file, h, hp, Except.mapError] at hv
          rw [hv]

/-! ### Claims -/

/-- Claim C9: the default-constructed values record has `max_perf_pct = 100`,
`min_perf_pct = 0` and `no_turbo = false`. -/
theorem C9_default_record :
    PStateValues.default.max_perf_pct = 100 ∧
    PStateValues.default.min_perf_pct = 0 ∧
    PStateValues.default.no_turbo = false := by
  decide

/-- Claim C3: `new()` returns a handle bound to the fixed path
`/sys/devices/system/cpu/intel_pstate` whenever that path exists as a
directory and the `NotFound` error whenever it does not; the rest of the
filesystem state is never consulted and no parameters are taken. -/
theorem C3_new (fs : FS) :
    (fs.intelPstateDir = true → PState.new fs = .ok { path := pstate_path }) ∧
    (fs.intelPstateDir = false → PState.new fs = .error .NotFound) := by
  constructor <;> intro h <;> simp [PState.new, h]

/-- Witness for C3: a filesystem with the directory and one without. -/
theorem C3_new_witness :
    PState.new { intelPstateDir := true, minFile := .absent, maxFile := .absent,
                 noTurboFile := .absent } = .ok { path := pstate_path } ∧
    PState.new { intelPstateDir := false, minFile := .absent, maxFile := .absent,
                 noTurboFile := .absent } = .error .NotFound :=
  ⟨(C3_new _).1 rfl, (C3_new _).2 rfl⟩

/-- Claim C7: `no_turbo()` parses the no_turbo file as an unsigned 8-bit
integer and returns `true` for every stored value strictly greater than 0,
and `false` exactly when the stored value is 0. -/
theorem C7_no_turbo (fs : FS) (c : String) (w : Bool) (v : Nat)
    (h : fs.noTurboFile = .file c true w)
    (hp : u8_from_str (trimString c) = .ok v) :
    (0 < v → PState.no_turbo { path := pstate_path } fs = .ok true) ∧
    (v = 0 → PState.no_turbo { path := pstate_path } fs = .ok false) := by
  have hbase := get_no_turbo_parse_ok fs c w v h hp
  constructor
  · intro hv
    rw [hbase, decide_eq_true hv]
  · intro hv
    subst hv
    rw [hbase]
    rfl

/-- Witness for C7: stored value 2 yields `true`, stored value 0 yields
`false`. -/
theorem C7_no_turbo_witness :
    PState.no_turbo { path := pstate_path }
      { intelPstateDir := true, minFile := .absent, maxFile := .absent,
        noTurboFile := .file "2\n" true true } = .ok true ∧
    PState.no_turbo { path := pstate_path }
      { intelPstateDir := true, minFile := .absent, maxFile := .absent,
        noTurboFile := .file "0\n" true true } = .ok false :=
  ⟨(C7_no_turbo _ "2\n" true 2 rfl (by decide)).1 (by decide),
   (C7_no_turbo _ "0\n" true 0 rfl (by decide)).2 rfl⟩

/-- Claim C6: every getter reads the file's entire contents, trims
whitespace and parses as an unsigned 8-bit integer; on parse success the
min/max getters return the parsed value (contents `"42\n"` yield 42), and on
parse failure each getter returns the data-format error carrying the parse
message, wrapped in its field's `Get*` variant — never a panic or a silent
default. -/
theorem C6_getters (fs : FS) (c : String) (w : Bool) :
    (∀ v, u8_from_str (trimString c) = .ok v →
      (fs.minFile = .file c true w →
        PState.min_perf_pct { path := pstate_path } fs = .ok v) ∧
      (fs.maxFile = .file c true w →
        PState.max_perf_pct { path := pstate_path } fs = .ok v)) ∧
    (∀ m, u8_from_str (trimString c) = .error m →
      (fs.minFile = .file c true w →
        PState.min_perf_pct { path := pstate_path } fs =
          .error (.GetMinPerf (.invalidData m))) ∧
      (fs.maxFile = .file c true w →
        PState.max_perf_pct { path := pstate_path } fs =
          .error (.GetMaxPerf (.invalidData m))) ∧
      (fs.noTurboFile = .file c true w →
        PState.no_turbo { path := pstate_path } fs =
          .error (.GetNoTurbo (.invalidData m)))) :=
  ⟨fun v hp =>
    ⟨fun h => get_min_parse_ok fs c w v h hp,
     fun h => get_max_parse_ok fs c w v h hp⟩,
   fun m hp =>
    ⟨fun h => get_min_parse_err fs c w m h hp,
     fun h => get_max_parse_err fs c w m h hp,
     fun h => get_no_turbo_parse_err fs c w m h hp⟩⟩

/-- Witness for C6: contents `"42\n"` yield 42; non-numeric contents yield
the invalid-digit data-format error. -/
theorem C6_getters_witness :
    PState.min_perf_pct { path := pstate_path }
      { intelPstateDir := true, minFile := .file "42\n" true true,
        maxFile := .absent, noTurboFile := .absent } = .ok 42 ∧
    PState.min_perf_pct { path := pstate_path }
      { intelPstateDir := true, minFile := .file "abc" true true,
        maxFile := .absent, noTurboFile := .absent } =
      .error (.GetMinPerf (.invalidData "invalid digit found in string")) :=
  ⟨((C6_getters _ "42\n" true).1 42 (by decide)).1 rfl,
   ((C6_getters _ "abc" true).2 "invalid digit found in string" (by decide)).1 rfl⟩

/-- Claim C10: a getter fails with the field's `Get*` data-format error
whenever the trimmed content is decimal text denoting an integer outside
0..=255 — a digit string with value above 255 gives the overflow message, a
leading minus the invalid-digit message — and a get succeeds only when the
trimmed content parses as an unsigned 8-bit integer (so any returned value
fits in 8 bits). -/
theorem C10_out_of_range (fs : FS) (c : String) (w : Bool)
    (h : fs.minFile = .file c true w) :
    ((trimString c).data.isEmpty = false →
      (trimString c).data.all Char.isDigit = true →
      255 < charsToNat (trimString c).data →
      PState.min_perf_pct { path := pstate_path } fs =
        .error (.GetMinPerf (.invalidData "number too large to fit in target type"))) ∧
    (∀ ds, (trimString c).data = '-' :: ds →
      PState.min_perf_pct { path := pstate_path } fs =
        .error (.GetMinPerf (.invalidData "invalid digit found in string"))) ∧
    (∀ v, PState.min_perf_pct { path := pstate_path } fs = .ok v →
      u8_from_str (trimString c) = .ok v ∧ v ≤ 255) := by
  refine ⟨fun h1 h2 h3 => ?_, fun ds hds => ?_, fun v hv => ?_⟩
  · exact get_min_parse_err fs c w _ h (u8_overflow _ h1 h2 h3)
  · exact get_min_parse_err fs c w _ h (u8_neg_sign _ ds hds)
  · have hinv := get_min_ok_inv fs c true w v h hv
    exact ⟨hinv.2, u8_ok_le _ v hinv.2⟩

/-- Witness for C10: contents `"300\n"` (numeric, too large) and `"-1"`
(numeric, negative) both fail with the `GetMinPerf` data-format error. -/
theorem C10_out_of_range_witness :
    PState.min_perf_pct { path := pstate_path }
      { intelPstateDir := true, minFile := .file "300\n" true true,
        maxFile := .absent, noTurboFile := .absent } =
      .error (.GetMinPerf (.invalidData "number too large to fit in target type")) ∧
    PState.min_perf_pct { path := pstate_path }
      { intelPstateDir := true, minFile := .file "-1" true true,
        maxFile := .absent, noTurboFile := .absent } =
      .error (.GetMinPerf (.invalidData "invalid digit found in string")) :=
  ⟨(C10_out_of_range _ "300\n" true rfl).1 (by decide) (by decide) (by decide),
   (C10_out_of_range _ "-1" true rfl).2.1 ['1'] (by decide)⟩

/-- Claim C5: every setter opens the existing target file for writing —
failing with the OS not-found error when the file does not exist, since the
open requests neither append nor create — and after a successful write the
file's contents are exactly the formatted value, replacing any prior
contents. -/
theorem C5_setters (fs : FS) (v : Nat) (b : Bool) :
    (fs.minFile = .absent →
      PState.set_min_perf_pct { path := pstate_path } v fs =
        (.error (.SetMinPerf v .notFound), fs)) ∧
    (fs.maxFile = .absent →
      PState.set_max_perf_pct { path := pstate_path } v fs =
        (.error (.SetMaxPerf v .notFound), fs)) ∧
    (fs.noTurboFile = .absent →
      PState.set_no_turbo { path := pstate_path } b fs =
        (.error (.SetNoTurbo b .notFound), fs)) ∧
    (∀ c r, fs.minFile = .file c r true →
      PState.set_min_perf_pct { path := pstate_path } v fs =
        (.ok (), { fs with minFile := .file (Nat.repr v) r true })) ∧
    (∀ c r, fs.maxFile = .file c r true →
      PState.set_max_perf_pct { path := pstate_path } v fs =
        (.ok (), { fs with maxFile := .file (Nat.repr v) r true })) ∧
    (∀ c r, fs.noTurboFile = .file c r true →
      PState.set_no_turbo { path := pstate_path } b fs =
        (.ok (), { fs with noTurboFile := .file (if b then "1" else "0") r true })) :=
  ⟨fun h => set_min_fail fs v .notFound (by rw [h]; rfl),
   fun h => set_max_fail fs v .notFound (by rw [h]; rfl),
   fun h => set_no_turbo_fail fs b .notFound (by rw [h]; rfl),
   fun c r h => set_min_ok fs v c r h,
   fun c r h => set_max_ok fs v c r h,
   fun c r h => set_no_turbo_ok fs b c r h⟩

/-- Witness for C5: writing 50 to a missing min file fails without touching
anything; writing 50 over prior contents `"7\n"` leaves exactly `"50"`. -/
theorem C5_setters_witness :
    PState.set_min_perf_pct { path := pstate_path } 50
      { intelPstateDir := true, minFile := .absent, maxFile := .absent,
        noTurboFile := .absent } =
      (.error (.SetMinPerf 50 .notFound),
       { intelPstateDir := true, minFile := .absent, maxFile := .absent,
         noTurboFile := .absent }) ∧
    PState.set_min_perf_pct { path := pstate_path } 50
      { intelPstateDir := true, minFile := .file "7\n" true true,
        maxFile := .absent, noTurboFile := .absent } =
      (.ok (), { intelPstateDir := true, minFile := .file "50" true true,
                 maxFile := .absent, noTurboFile := .absent }) :=
  ⟨(C5_setters _ 50 true).1 rfl,
   (C5_setters _ 50 true).2.2.2.1 "7\n" true rfl⟩

/-- Claim C8: `set_no_turbo true` writes exactly the bytes `"1"` and
`set_no_turbo false` exactly the bytes `"0"` to the no_turbo file; on write
failure it returns `SetNoTurbo` carrying the boolean being applied together
with the underlying I/O error. -/
theorem C8_set_no_turbo (fs : FS) (b : Bool) :
    (∀ c r, fs.noTurboFile = .file c r true →
      PState.set_no_turbo { path := pstate_path } true fs =
        (.ok (), { fs with noTurboFile := .file "1" r true }) ∧
      PState.set_no_turbo { path := pstate_path } false fs =
        (.ok (), { fs with noTurboFile := .file "0" r true })) ∧
    (∀ e, writeFailure fs.noTurboFile = some e →
      PState.set_no_turbo { path := pstate_path } b fs =
        (.error (.SetNoTurbo b e), fs)) :=
  ⟨fun c r h => ⟨set_no_turbo_ok fs true c r h, set_no_turbo_ok fs false c r h⟩,
   fun e he => set_no_turbo_fail fs b e he⟩

/-- Witness for C8: enabling no_turbo stores exactly `"1"`; a write denied
by the OS surfaces as `SetNoTurbo true` with the underlying error. -/
theorem C8_set_no_turbo_witness :
    PState.set_no_turbo { path := pstate_path } true
      { intelPstateDir := true, minFile := .absent, maxFile := .absent,
        noTurboFile := .file "0\n" true true } =
      (.ok (), { intelPstateDir := true, minFile := .absent, maxFile := .absent,
                 noTurboFile := .file "1" true true }) ∧
    PState.set_no_turbo { path := pstate_path } true
      { intelPstateDir := true, minFile := .absent, maxFile := .absent,
        noTurboFile := .file "0\n" true false } =
      (.error (.SetNoTurbo true .permissionDenied),
       { intelPstateDir := true, minFile := .absent, maxFile := .absent,
         noTurboFile := .file "0\n" true false }) :=
  ⟨((C8_set_no_turbo _ true).1 "0\n" true rfl).1,
   (C8_set_no_turbo _ true).2 .permissionDenied rfl⟩

/-- Claim C4: round-trip — for every value in the field's legal range, a
successful set of that field followed by a get of the same field returns the
value, regardless of the file's prior contents (for no_turbo the boolean
round-trips through the 0/1 encoding). -/
theorem C4_round_trip (fs : FS) (v : Nat) (b : Bool) :
    (∀ c, v ≤ 100 → fs.minFile = .file c true true →
      PState.min_perf_pct { path := pstate_path }
        (PState.set_min_perf_pct { path := pstate_path } v fs).2 = .ok v) ∧
    (∀ c, v ≤ 100 → fs.maxFile = .file c true true →
      PState.max_perf_pct { path := pstate_path }
        (PState.set_max_perf_pct { path := pstate_path } v fs).2 = .ok v) ∧
    (∀ c, fs.noTurboFile = .file c true true →
      PState.no_turbo { path := pstate_path }
        (PState.set_no_turbo { path := pstate_path } b fs).2 = .ok b) := by
  refine ⟨fun c hv h => ?_, fun c hv h => ?_, fun c h => ?_⟩
  · rw [set_min_ok fs v c true h]
    exact get_min_parse_ok { fs with minFile := .file (Nat.repr v) true true }
      (Nat.repr v) true v rfl (u8_repr_round v (by omega))
  · rw [set_max_ok fs v c true h]
    exact get_max_parse_ok { fs with maxFile := .file (Nat.repr v) true true }
      (Nat.repr v) true v rfl (u8_repr_round v (by omega))
  · rw [set_no_turbo_ok fs b c true h]
    cases b with
    | false =>
        exact get_no_turbo_parse_ok
          { fs with noTurboFile := .file "0" true true } "0" true 0 rfl (by decide)
    | true =>
        exact get_no_turbo_parse_ok
          { fs with noTurboFile := .file "1" true true } "1" true 1 rfl (by decide)

/-- Witness for C4: setting min to 50 over prior contents `"7\n"` and
reading it back yields 50; setting no_turbo to `true` over `"0\n"` and
reading it back yields `true`. -/
theorem C4_round_trip_witness :
    PState.min_perf_pct { path := pstate_path }
      (PState.set_min_perf_pct { path := pstate_path } 50
        { intelPstateDir := true, minFile := .file "7\n" true true,
          maxFile := .absent, noTurboFile := .absent }).2 = .ok 50 ∧
    PState.no_turbo { path := pstate_path }
      (PState.set_no_turbo { path := pstate_path } true
        { intelPstateDir := true, minFile := .absent, maxFile := .absent,
          noTurboFile := .file "0\n" true true }).2 = .ok true :=
  ⟨(C4_round_trip _ 50 true).1 "7\n" (by omega) rfl,
   (C4_round_trip { intelPstateDir := true, minFile := .absent, maxFile := .absent,
                    noTurboFile := .file "0\n" true true } 50 true).2.2 "0\n" rfl⟩

/-- Claim C2: `values()` is exactly the composition of the three getters in
the fixed order min, max, no_turbo; the first failing getter's specific
error is returned immediately, later getters are not consulted, no partial
record is returned, and — the getters being pure functions of the
filesystem state that return no new state — no file state is mutated. -/
theorem C2_values (fs : FS) :
    (∀ e, PState.min_perf_pct { path := pstate_path } fs = .error e →
      PState.values { path := pstate_path } fs = .error e) ∧
    (∀ mn e, PState.min_perf_pct { path := pstate_path } fs = .ok mn →
      PState.max_perf_pct { path := pstate_path } fs = .error e →
      PState.values { path := pstate_path } fs = .error e) ∧
    (∀ mn mx e, PState.min_perf_pct { path := pstate_path } fs = .ok mn →
      PState.max_perf_pct { path := pstate_path } fs = .ok mx →
      PState.no_turbo { path := pstate_path } fs = .error e →
      PState.values { path := pstate_path } fs = .error e) ∧
    (∀ mn mx nt, PState.min_perf_pct { path := pstate_path } fs = .ok mn →
      PState.max_perf_pct { path := pstate_path } fs = .ok mx →
      PState.no_turbo { path := pstate_path } fs = .ok nt →
      PState.values { path := pstate_path } fs =
        .ok { min_perf_pct := mn, max_perf_pct := mx, no_turbo := nt }) := by
  refine ⟨fun e h1 => ?_, fun mn e h1 h2 => ?_,
          fun mn mx e h1 h2 h3 => ?_, fun mn mx nt h1 h2 h3 => ?_⟩
  · unfold PState.values
    rw [h1]
  · unfold PState.values
    rw [h1, h2]
  · unfold PState.values
    rw [h1, h2, h3]
  · unfold PState.values
    rw [h1, h2, h3]

/-- Witness for C2: min reads 10, the max file is unreadable, so `values`
fails with exactly `GetMaxPerf` and the no_turbo getter is never reached. -/
theorem C2_values_witness :
    PState.values { path := pstate_path }
      { intelPstateDir := true, minFile := .file "10\n" true true,
        maxFile := .file "90\n" false true, noTurboFile := .file "0\n" true true } =
      .error (.GetMaxPerf .permissionDenied) :=
  (C2_values _).2.1 10 (.GetMaxPerf .permissionDenied) (by decide) (by decide)

/-- Claim C1: `set_values(v)` writes the three fields in the fixed order
min, max, no_turbo and short-circuits on the first failing write: an early
failure stops later writes, the fields written before the failure keep their
newly written values, and the files after the failing one keep their
previous contents. -/
theorem C1_set_values (fs : FS) (v : PStateValues) :
    (∀ e, writeFailure fs.minFile = some e →
      PState.set_values { path := pstate_path } v fs =
        (.error (.SetMinPerf v.min_perf_pct e), fs)) ∧
    (∀ c r e, fs.minFile = .file c r true → writeFailure fs.maxFile = some e →
      PState.set_values { path := pstate_path } v fs =
        (.error (.SetMaxPerf v.max_perf_pct e),
         { fs with minFile := .file (Nat.repr v.min_perf_pct) r true })) ∧
    (∀ c r c' r' e, fs.minFile = .file c r true → fs.maxFile = .file c' r' true →
      writeFailure fs.noTurboFile = some e →
      PState.set_values { path := pstate_path } v fs =
        (.error (.SetNoTurbo v.no_turbo e),
         { fs with minFile := .file (Nat.repr v.min_perf_pct) r true,
                   maxFile := .file (Nat.repr v.max_perf_pct) r' true })) ∧
    (∀ c r c' r' c'' r'', fs.minFile = .file c r true →
      fs.maxFile = .file c' r' true → fs.noTurboFile = .file c'' r'' true →
      PState.set_values { path := pstate_path } v fs =
        (.ok (),
         { fs with minFile := .file (Nat.repr v.min_perf_pct) r true,
                   maxFile := .file (Nat.repr v.max_perf_pct) r' true,
                   noTurboFile := .file (if v.no_turbo then "1" else "0") r'' true })) := by
  refine ⟨fun e he => ?_, fun c r e h1 h2 => ?_,
          fun c r c' r' e h1 h2 h3 => ?_, fun c r c' r' c'' r'' h1 h2 h3 => ?_⟩
  · unfold PState.set_values
    rw [set_min_fail fs v.min_perf_pct e he]
  · unfold PState.set_values
    rw [set_min_ok fs v.min_perf_pct c r h1]
    dsimp only
    rw [set_max_fail { fs with minFile := .file (Nat.repr v.min_perf_pct) r true }
      v.max_perf_pct e h2]
  · unfold PState.set_values
    rw [set_min_ok fs v.min_perf_pct c r h1]
    dsimp only
    rw [set_max_ok { fs with minFile := .file (Nat.repr v.min_perf_pct) r true }
      v.max_perf_pct c' r' h2]
    dsimp only
    rw [set_no_turbo_fail
      { fs with minFile := .file (Nat.repr v.min_perf_pct) r true,
                maxFile := .file (Nat.repr v.max_perf_pct) r' true }
      v.no_turbo e h3]
  · unfold PState.set_values
    rw [set_min_ok fs v.min_perf_pct c r h1]
    dsimp only
    rw [set_max_ok { fs with minFile := .file (Nat.repr v.min_perf_pct) r true }
      v.max_perf_pct c' r' h2]
    dsimp only
    rw [set_no_turbo_ok
      { fs with minFile := .file (Nat.repr v.min_perf_pct) r true,
                maxFile := .file (Nat.repr v.max_perf_pct) r' true }
      v.no_turbo c'' r'' h3]

/-- Witness for C1: with a writable min file, an absent max file and a
writable no_turbo file, `set_values {42, 90, true}` fails on the max write
with `SetMaxPerf`, the min file holds the newly written `"42"`, and the
no_turbo file keeps its previous contents. -/
theorem C1_set_values_witness :
    PState.set_values { path := pstate_path }
      { min_perf_pct := 42, max_perf_pct := 90, no_turbo := true }
      { intelPstateDir := true, minFile := .file "0\n" true true,
        maxFile := .absent, noTurboFile := .file "0\n" true true } =
      (.error (.SetMaxPerf 90 .notFound),
       { intelPstateDir := true, minFile := .file "42" true true,
         maxFile := .absent, noTurboFile := .file "0\n" true true }) :=
  (C1_set_values _ _).2.1 "0\n" true .notFound rfl rfl

end IntelPstate
